import Mathlib

/-!
Verification of the OneArgo index-catalog and profile-selection engine.

This file is a shallow embedding of the selection, validation and fetch logic
of the Argo class (oneargopy/Argo.py) together with theorems about it.

Modelling conventions:
. dataframe rows become the structure Row; a per-row boolean numpy array
  becomes a List Bool aligned with the row list;
. datetimes (numpy datetime64 values) become Int seconds since the Unix
  epoch; the dataset epoch datetime(1995, 1, 1, tzinfo=utc) is the constant
  epoch_1995;
. float coordinates become exact rationals;
. a Python function that can raise becomes Except String;
. instance attributes that a method may read before any method has assigned
  them (keep_full_geographic, selected_from_prof_index,
  selected_from_sprof_index) become Option values, with none meaning
  "attribute never assigned"; reading none models the AttributeError that
  the Python interpreter raises.
-/

/-- One parsed row of an index table (prof_index or sprof_index): the columns
of the dataframes built by load_prof_dataframe and load_sprof_dataframe
that the selection engine reads.  The is_bgc column of prof_index is not a
field: it is recomputed from the sprof table by is_bgc_float, exactly as
mark_bgcs_in_prof derives it. -/
structure Row where
  wmoid : Int
  date : Int
  longitude : ℚ
  latitude : ℚ
  ocean : String
  profile_index : Nat
deriving DecidableEq

/-- Epsilon used by select_profiles (self.epsilon = 1e-3). -/
def epsilon_q : ℚ := 1/1000

/-- Seconds since the Unix epoch of datetime(1995, 1, 1, tzinfo=timezone.utc). -/
def epoch_1995 : Int := 788918400

/-- Seconds in timedelta(days=1). -/
def day_seconds : Int := 86400

/-! Index loading: sort_values(by=[wmoid, date]) followed by
groupby(wmoid)[date].cumcount() + 1, shared verbatim by
load_sprof_dataframe (Argo.py lines 463-466) and load_prof_dataframe
(lines 490-493). -/

/-- Comparison used by sort_values(by=[wmoid, date]): lexicographic order on
the (wmoid, date) pair. -/
def row_le (a b : Row) : Prop :=
  a.wmoid < b.wmoid ∨ (a.wmoid = b.wmoid ∧ a.date ≤ b.date)

instance : DecidableRel row_le := fun a b => by
  unfold row_le; exact inferInstance

instance : IsTotal Row row_le := by
  constructor
  intro a b
  rcases lt_trichotomy a.wmoid b.wmoid with h | h | h
  · exact Or.inl (Or.inl h)
  · rcases le_total a.date b.date with hd | hd
    · exact Or.inl (Or.inr ⟨h, hd⟩)
    · exact Or.inr (Or.inr ⟨h.symm, hd⟩)
  · exact Or.inr (Or.inl h)

instance : IsTrans Row row_le := by
  constructor
  intro a b c hab hbc
  rcases hab with h1 | ⟨h1, d1⟩
  · rcases hbc with h2 | ⟨h2, _⟩
    · exact Or.inl (lt_trans h1 h2)
    · exact Or.inl (h2 ▸ h1)
  · rcases hbc with h2 | ⟨h2, d2⟩
    · exact Or.inl (h1 ▸ h2)
    · exact Or.inr ⟨h1.trans h2, d1.trans d2⟩

/-- Accumulator pass of groupby(wmoid)[date].cumcount() + 1: each row
receives one plus the number of earlier rows (the seen list) with the same
wmoid. -/
def cumcount_go : List Row → List Row → List Row
  | _, [] => []
  | seen, r :: rs =>
    { r with profile_index := seen.countP (fun x => x.wmoid == r.wmoid) + 1 } ::
      cumcount_go (r :: seen) rs

/-- Model of the profile_index assignment of load_sprof_dataframe and
load_prof_dataframe: sort by (wmoid, date), then set profile_index to the
per-wmoid cumulative count plus one. -/
def assign_profile_indexes (rows : List Row) : List Row :=
  cumcount_go [] (List.insertionSort row_le rows)

/-- Projection of a row to the pair of columns the loader sort reads. -/
def row_key (r : Row) : Int × Int := (r.wmoid, r.date)

/-! Resilient fetch: try_download (Argo.py lines 354-410) and
download_index_file (lines 320-351).  The outcome of one transfer attempt
from one host is abstracted as a boolean function ok of the iteration number
and the host; the local index (txt) file is written only after a transfer
succeeds, so its content is threaded through as Option String. -/

inductive DownloadOutcome where
  | fileWritten
  | staleWarning
  | fatalFailure
deriving DecidableEq

/-- Inner for-loop of try_download: try each host in order, stop at the
first success.  Returns the hosts tried (in order) and the success flag. -/
def try_iteration (ok : String → Bool) : List String → List String × Bool
  | [] => ([], false)
  | h :: hs =>
    if ok h then ([h], true)
    else
      let p := try_iteration ok hs
      (h :: p.1, p.2)

/-- Outer while-loop of try_download: while not success and
iterations < max_attempts.  The fuel argument is max_attempts minus the
current iteration count.  Returns the full trace of (iteration, host) tries
and the success flag. -/
def try_download_loop (ok : Nat → String → Bool) (hosts : List String) :
    Nat → Nat → List (Nat × String) × Bool
  | _, 0 => ([], false)
  | iter, fuel + 1 =>
    let p := try_iteration (ok iter) hosts
    if p.2 then (p.1.map (fun h => (iter, h)), true)
    else
      let q := try_download_loop ok hosts (iter + 1) fuel
      (p.1.map (fun h => (iter, h)) ++ q.1, q.2)

/-- Model of try_download: run the retry loop; on overall failure raise
(update_status false) or warn (update_status true).  The middle component is
the local index file after the call: the txt file is rewritten only on
success, otherwise the old content stays. -/
def try_download (max_attempts : Nat) (hosts : List String) (ok : Nat → String → Bool)
    (update_status : Bool) (old_file : Option String) (new_file : String) :
    DownloadOutcome × Option String × List (Nat × String) :=
  let p := try_download_loop ok hosts 0 max_attempts
  if p.2 then (.fileWritten, some new_file, p.1)
  else if update_status then (.staleWarning, old_file, p.1)
  else (.fatalFailure, old_file, p.1)

/-- Declarative view of the full try schedule: every (iteration, host) pair
in loop order. -/
def all_tries (max_attempts : Nat) (hosts : List String) : List (Nat × String) :=
  (List.range max_attempts).flatMap (fun i => hosts.map (fun h => (i, h)))

/-- Declarative view of early exit: the prefix of a try schedule up to and
including the first successful try. -/
def cut_at_first_success (ok : Nat → String → Bool) :
    List (Nat × String) → List (Nat × String)
  | [] => []
  | t :: ts => if ok t.1 t.2 then [t] else t :: cut_at_first_success ok ts

inductive DownloadAction where
  | skip
  | refreshFetch
  | initialFetch
deriving DecidableEq

/-- Staleness decision of download_index_file: with a local file present,
update 0 disables refresh, otherwise refresh exactly when the seconds since
the last modification exceed the update threshold; with no local file,
always fetch. -/
def download_index_file (file_on_disk : Bool) (update : ℚ)
    (seconds_since_modified : ℚ) : DownloadAction :=
  if file_on_disk then
    if update = 0 then .skip
    else if seconds_since_modified > update then .refreshFetch
    else .skip
  else .initialFetch

/-- Download_index_file followed by the try_download call it decides on:
none when no download is attempted, otherwise the try_download result with
update_status true for a refresh and false for an initial fetch. -/
def download_index_run (file_on_disk : Bool) (update seconds_since_modified : ℚ)
    (max_attempts : Nat) (hosts : List String) (ok : Nat → String → Bool)
    (old_file : Option String) (new_file : String) :
    Option (DownloadOutcome × Option String × List (Nat × String)) :=
  match download_index_file file_on_disk update seconds_since_modified with
  | .skip => none
  | .refreshFetch => some (try_download max_attempts hosts ok true old_file new_file)
  | .initialFetch => some (try_download max_attempts hosts ok false old_file new_file)

/-! Geographic filter: get_in_geographic_range (Argo.py lines 763-813). -/

/-- Python min over a nonempty list (min of an empty list would raise; the
callers only reach this after the empty case has errored out). -/
def py_min (l : List ℚ) : ℚ := l.foldl min (l.headD 0)

/-- Python max over a nonempty list. -/
def py_max (l : List ℚ) : ℚ := l.foldl max (l.headD 0)

/-- Modelled from the spec: the planar point-in-region containment test the
source delegates to matplotlib.path.Path.contains_points, which the spec
describes as a standard planar point-in-polygon test, boundary inclusive;
specialized here to the axis-aligned rectangle that the source builds from
the four corners of the min and max limit pairs. -/
def rect_contains (lon_min lon_max lat_min lat_max lon lat : ℚ) : Bool :=
  decide (lon_min ≤ lon) && decide (lon ≤ lon_max) &&
    decide (lat_min ≤ lat) && decide (lat ≤ lat_max)

/-- Modelled from the spec: the planar point-in-polygon test the source
delegates to matplotlib.path.Path.contains_points for vertex-list regions (a
standard even-odd crossing test).  No theorem in this file depends on its
boundary behaviour. -/
def edge_crosses (p : ℚ × ℚ) (e : (ℚ × ℚ) × (ℚ × ℚ)) : Bool :=
  (decide (e.1.2 > p.2) != decide (e.2.2 > p.2)) &&
    decide (p.1 < (e.2.1 - e.1.1) * (p.2 - e.1.2) / (e.2.2 - e.1.2) + e.1.1)

/-- Edge list of a closed polygon: consecutive vertex pairs, wrapping the
last vertex back to the first. -/
def poly_edges (vs : List (ℚ × ℚ)) : List ((ℚ × ℚ) × (ℚ × ℚ)) :=
  match vs with
  | [] => []
  | v :: _ => vs.zip (vs.tail ++ [v])

/-- Modelled from the spec: even-odd point-in-polygon test (see edge_crosses). -/
def poly_contains (vs : List (ℚ × ℚ)) (p : ℚ × ℚ) : Bool :=
  (poly_edges vs).countP (edge_crosses p) % 2 == 1

/-- Longitude remapping of get_in_geographic_range: when the query region
extends past 180 degrees, a row longitude strictly between -180 and the
region minimum is shifted by +360. -/
def adjusted_longitude (lon_lim : List ℚ) (x : ℚ) : ℚ :=
  if py_max lon_lim > 180 then
    (if -180 < x ∧ x < py_min lon_lim then x + 360 else x)
  else x

/-- General (non fast path) per-row geographic test of
get_in_geographic_range: adjust the longitude, then test containment in the
rectangle built from a two-element limit pair, or in the polygon built by
zipping longer limit lists. -/
def geo_general_pred (lon_lim lat_lim : List ℚ) (r : Row) : Bool :=
  if lat_lim.length = 2 then
    rect_contains (py_min lon_lim) (py_max lon_lim) (py_min lat_lim) (py_max lat_lim)
      (adjusted_longitude lon_lim r.longitude) r.latitude
  else
    poly_contains (lon_lim.zip lat_lim) (adjusted_longitude lon_lim r.longitude, r.latitude)

/-- Model of get_in_geographic_range.  The keep_full_geographic flag is read
unconditionally before anything else; none models the attribute never having
been assigned, which is an AttributeError in the source.  Some true takes
the whole-globe fast path marking every row as matching. -/
def get_in_geographic_range (keep_full_geographic : Option Bool)
    (lon_lim lat_lim : List ℚ) (rows : List Row) : Except String (List Bool) :=
  match keep_full_geographic with
  | none => .error "AttributeError: Argo object has no attribute keep_full_geographic"
  | some b =>
    if b then .ok (List.replicate rows.length true)
    else .ok (rows.map (geo_general_pred lon_lim lat_lim))

/-! Temporal filter: get_in_date_range (Argo.py lines 816-837). -/

/-- General (non fast path) per-row date test of get_in_date_range: the date
lies strictly between start_date and end_date. -/
def date_general_pred (start_date end_date : Int) (r : Row) : Bool :=
  decide (start_date < r.date) && decide (r.date < end_date)

/-- Model of get_in_date_range: when the requested window is the full
supported range (start at the dataset epoch and end at or after now), every
row matches; otherwise each row is tested strictly against both bounds. -/
def get_in_date_range (start_date end_date now : Int) (rows : List Row) : List Bool :=
  if start_date = epoch_1995 ∧ now ≤ end_date then List.replicate rows.length true
  else rows.map (date_general_pred start_date end_date)

/-! Outside-mode combination: get_in_time_and_space_constraints
(Argo.py lines 840-878). -/

/-- Elementwise conjunction of two aligned boolean arrays. -/
def zip_and (a b : List Bool) : List Bool := List.zipWith (fun x y => x && y) a b

/-- Boolean-mask row selection, dataframe[mask]. -/
def mask_filter : List Row → List Bool → List Row
  | [], _ => []
  | _ :: _, [] => []
  | r :: rs, b :: bs => if b then r :: mask_filter rs bs else mask_filter rs bs

/-- Series.isin test on the wmoid column of a frame. -/
def wmoid_member (frame : List Row) (r : Row) : Bool :=
  frame.any (fun x => x.wmoid == r.wmoid)

/-- Model of get_in_time_and_space_constraints: build the rows inside both
bounds, mark each row whose float has at least one such row, then branch on
the outside keyword exactly as the elif chain does.  A value matching no
branch (for example the empty string, which is falsy and so skips
validation) leaves selection_frame unbound, an UnboundLocalError. -/
def get_in_time_and_space_constraints (outside : Option String) (rows : List Row)
    (profiles_in_space profiles_in_time : List Bool) : Except String (List Row) :=
  let constraints := zip_and profiles_in_time profiles_in_space
  let in_both := mask_filter rows constraints
  let floats_in_time_and_space := rows.map (wmoid_member in_both)
  if outside = some "time" then
    .ok (mask_filter rows (zip_and floats_in_time_and_space profiles_in_space))
  else if outside = some "space" then
    .ok (mask_filter rows (zip_and floats_in_time_and_space profiles_in_time))
  else if outside = none then
    .ok (mask_filter rows
      (zip_and (zip_and floats_in_time_and_space profiles_in_space) profiles_in_time))
  else if outside = some "both" then
    .ok (mask_filter rows floats_in_time_and_space)
  else .error "UnboundLocalError: local variable selection_frame referenced before assignment"

/-- Per-table filter body: the geographic and date vectors are computed for
the frame and combined under the outside mode, as in the body of
get_in_time_and_space_constraints together with its two callees. -/
def get_in_time_and_space_full (outside : Option String)
    (keep_full_geographic : Option Bool) (lon_lim lat_lim : List ℚ)
    (start_date end_date now : Int) (rows : List Row) : Except String (List Row) :=
  match get_in_geographic_range keep_full_geographic lon_lim lat_lim rows with
  | .error e => .error e
  | .ok s =>
    get_in_time_and_space_constraints outside rows s
      (get_in_date_range start_date end_date now rows)

/-! Biogeochemical classification and table scoping: mark_bgcs_in_prof
(Argo.py lines 502-508), load_is_bgc_index (510-515) and prepare_selection
(653-715). -/

/-- Classification of mark_bgcs_in_prof: a float is biogeochemical exactly
when its wmoid occurs in the sprof (biogeochemical) table,
prof_index.wmoid.isin(sprof_index.wmoid.unique()). -/
def is_bgc_float (sprof : List Row) (w : Int) : Bool :=
  ((sprof.map Row.wmoid).dedup).contains w

/-- Model of load_is_bgc_index: the deduplicated (wmoid, is_bgc) pairs of
the prof table. -/
def float_is_bgc_index (prof sprof : List Row) : List (Int × Bool) :=
  (prof.map (fun r => (r.wmoid, is_bgc_float sprof r.wmoid))).dedup

/-- Model of prepare_selection: choose the rows each table contributes.
With no explicit float list, the prof side is restricted to rows whose float
is not biogeochemical and the sprof side is the whole sprof table.  With an
explicit float list, each side keeps the requested floats whose
classification matches the table, and a side is left unassigned (none) when
the float type excludes it. -/
def prepare_selection (prof sprof : List Row) (float_type : String)
    (float_ids : Option (List Int)) : Option (List Row) × Option (List Row) :=
  match float_ids with
  | none => (some (prof.filter (fun r => is_bgc_float sprof r.wmoid == false)), some sprof)
  | some ids =>
    let idx := float_is_bgc_index prof sprof
    let selected_floats_bgc := (idx.filter (fun p => ids.contains p.1 && p.2)).map Prod.fst
    let selected_floats_phys := (idx.filter (fun p => ids.contains p.1 && !p.2)).map Prod.fst
    ((if float_type ≠ "bgc" then
        some (prof.filter (fun r => selected_floats_phys.contains r.wmoid))
      else none),
     (if float_type ≠ "phys" then
        some (sprof.filter (fun r => selected_floats_bgc.contains r.wmoid))
      else none))

/-! Criteria validation: the private validators called at the top of
select_profiles (Argo.py lines 173-199, 531-650). -/

/-- Python truthiness of an optional string: None and the empty string are
falsy. -/
def truthy_str : Option String → Bool
  | none => false
  | some s => !(s == "")

/-- Python truthiness of the floats keyword (modelled for list arguments):
None and the empty list are falsy. -/
def truthy_ids : Option (List Int) → Bool
  | none => false
  | some l => !l.isEmpty

/-- Two-element branch of validate_lon_lat_limits: reject limit pairs that
are not strictly increasing, then set keep_full_geographic from the epsilon
test on the longitude and latitude spans.  For other lengths the attribute
keeps whatever value it had (none on a fresh instance). -/
def validate_two_element_limits (lon_lim lat_lim : List ℚ) (kfg0 : Option Bool) :
    Except String (Option Bool) :=
  match lon_lim, lat_lim with
  | [lon0, lon1], [lat0, lat1] =>
    if lon1 ≤ lon0 ∨ lat1 ≤ lat0 then
      .error "When passing longitude and latitude lists using the min max format, the max value must be greater than the min value."
    else if |lon1 - lon0 - 360| < epsilon_q ∧ |lat1 - lat0 - 180| < epsilon_q then
      .ok (some true)
    else .ok (some false)
  | _, _ => .ok kfg0

/-- Model of validate_lon_lat_limits: length equality, the two-element
min-max and keep_full_geographic block, the latitude range check, the
longitude span check, and the +360 shift when the minimum longitude is below
-180.  Returns the (possibly shifted) longitude limits and the
keep_full_geographic attribute value after the call.  An empty longitude
list would make Python max raise a ValueError, also modelled as an error. -/
def validate_lon_lat_limits (lon_lim lat_lim : List ℚ) (kfg0 : Option Bool) :
    Except String (List ℚ × Option Bool) :=
  if lon_lim.length ≠ lat_lim.length then
    .error "The length of the longitude and latitude lists must be equal."
  else
    match validate_two_element_limits lon_lim lat_lim kfg0 with
    | .error e => .error e
    | .ok kfg =>
      if ¬ (∀ la ∈ lat_lim, -90 ≤ la ∧ la ≤ 90) then
        .error "Latitude values should be between -90 and 90."
      else if lon_lim.isEmpty then
        .error "ValueError: max arg is an empty sequence"
      else if py_max lon_lim - py_min lon_lim > 360 ∨ py_max lon_lim - py_min lon_lim ≤ 0 then
        .error "The range between the maximum and minimum longitude values must be between 0 and 360."
      else if py_min lon_lim < -180 then .ok (lon_lim.map (fun x => x + 360), kfg)
      else .ok (lon_lim, kfg)

/-- Model of validate_start_end_dates on already parsed datetimes: an unset
end date becomes now plus one day, the start must not be after the end, and
the start must not precede the dataset epoch. -/
def validate_start_end_dates (start_date : Int) (end_date : Option Int) (now : Int) :
    Except String (Int × Int) :=
  let resolved_end := match end_date with
    | none => now + day_seconds
    | some e => e
  if start_date > resolved_end then
    .error "The start date must be in the past when compared to the end date."
  else if start_date < epoch_1995 then
    .error "Start date must be after 1995-01-01 for any floats to be active."
  else .ok (start_date, resolved_end)

/-- Model of validate_outside_kwarg: any value other than time, space and
both is rejected; in particular the value none (as a string) is rejected. -/
def validate_outside_kwarg (outside : Option String) : Except String Unit :=
  match outside with
  | none => .ok ()
  | some s =>
    if s ≠ "time" ∧ s ≠ "space" ∧ s ≠ "both" then
      .error "The only acceptable values for the outside keyword argument are time, space, and both."
    else .ok ()

/-- Model of validate_type_kwarg. -/
def validate_type_kwarg (float_type : String) : Except String Unit :=
  if float_type ≠ "all" ∧ float_type ≠ "phys" ∧ float_type ≠ "bgc" then
    .error "The only acceptable values for the type keyword argument are all, phys, and bgc."
  else .ok ()

/-- Model of validate_ocean_kwarg. -/
def validate_ocean_kwarg (ocean : Option String) : Except String Unit :=
  if ocean ≠ some "A" ∧ ocean ≠ some "P" ∧ ocean ≠ some "I" then
    .error "The only acceptable values for the ocean keyword argument are A, P, and I."
  else .ok ()

/-- Model of validate_floats_kwarg for list arguments: every requested float
id must occur in the prof table. -/
def validate_floats_kwarg (ids : List Int) (prof : List Row) : Except String Unit :=
  if ids.all (fun i => prof.any (fun r => r.wmoid == i)) then .ok ()
  else .error "The following float IDs do not exist in the dataframes."

/-- Arguments of one select_profiles call, after keyword defaulting: dates
already parsed to Int seconds, float_type already resolved from the type
keyword or the settings default. -/
structure SelectParams where
  lon_lim : List ℚ
  lat_lim : List ℚ
  start_date : Int
  end_date : Option Int
  outside : Option String
  float_type : String
  float_ids : Option (List Int)
  ocean : Option String
deriving DecidableEq

/-- State select_profiles carries into the filtering phase after the
validators have run. -/
structure ValidatedCriteria where
  lon_lim : List ℚ
  lat_lim : List ℚ
  keep_full_geographic : Option Bool
  start_date : Int
  end_date : Int
deriving DecidableEq

/-- Validation phase of select_profiles (Argo.py lines 185-190), in source
order: longitude and latitude limits, dates, then the outside, type and
ocean keywords, each of the last three only when the stored value is truthy. -/
def validate_params (p : SelectParams) (now : Int) (kfg0 : Option Bool) :
    Except String ValidatedCriteria :=
  match validate_lon_lat_limits p.lon_lim p.lat_lim kfg0 with
  | .error e => .error e
  | .ok lk =>
    match validate_start_end_dates p.start_date p.end_date now with
    | .error e => .error e
    | .ok se =>
      match (if truthy_str p.outside then validate_outside_kwarg p.outside else .ok ()) with
      | .error e => .error e
      | .ok _ =>
        match (if p.float_type ≠ "" then validate_type_kwarg p.float_type else .ok ()) with
        | .error e => .error e
        | .ok _ =>
          match (if truthy_str p.ocean then validate_ocean_kwarg p.ocean else .ok ()) with
          | .error e => .error e
          | .ok _ => .ok ⟨lk.1, p.lat_lim, lk.2, se.1, se.2⟩

/-- Model of dataframe_to_dictionary: group the selection frame rows by
wmoid in first-appearance order, collect each group's profile_index values
in row order, then sort the keys ascending. -/
def dataframe_to_dictionary (selection_frame : List Row) : List (Int × List Nat) :=
  let keys := (selection_frame.map Row.wmoid).dedup
  let sorted_keys := List.insertionSort (fun a b : Int => a ≤ b) keys
  sorted_keys.map (fun w =>
    (w, (selection_frame.filter (fun r => r.wmoid == w)).map Row.profile_index))

/-- Reading one of the selected_from frames: none models the attribute never
having been assigned. -/
def attribute_get (x : Option (List Row)) : Except String (List Row) :=
  match x with
  | none => .error "AttributeError: Argo object has no attribute selected frame"
  | some rows => .ok rows

/-- Model of narrow_profiles_by_criteria: the prof side is filtered unless
the type is bgc, the sprof side unless the type is phys, the two frames are
concatenated (bgc first), the ocean filter is applied when the ocean keyword
is truthy, and the frame becomes the result dictionary. -/
def narrow_profiles_by_criteria (float_type : String) (outside ocean : Option String)
    (v : ValidatedCriteria) (now : Int)
    (selected_prof selected_sprof : Option (List Row)) :
    Except String (List (Int × List Nat)) :=
  match (if float_type = "bgc" then (.ok [] : Except String (List Row))
         else match attribute_get selected_prof with
              | .error e => .error e
              | .ok rows =>
                get_in_time_and_space_full outside v.keep_full_geographic v.lon_lim
                  v.lat_lim v.start_date v.end_date now rows) with
  | .error e => .error e
  | .ok selection_frame_phys =>
    match (if float_type = "phys" then (.ok [] : Except String (List Row))
           else match attribute_get selected_sprof with
                | .error e => .error e
                | .ok rows =>
                  get_in_time_and_space_full outside v.keep_full_geographic v.lon_lim
                    v.lat_lim v.start_date v.end_date now rows) with
    | .error e => .error e
    | .ok selection_frame_bgc =>
      let selection_frame := selection_frame_bgc ++ selection_frame_phys
      let selection_frame :=
        if truthy_str ocean then
          selection_frame.filter (fun r => r.ocean == ocean.getD "")
        else selection_frame
      .ok (dataframe_to_dictionary selection_frame)

/-- Model of select_profiles: validate the criteria, validate the requested
floats against the prof table when a truthy float list was passed, scope the
tables with prepare_selection, then filter.  The parameters now (wall clock
at the call) and kfg0 (the keep_full_geographic attribute value before the
call, none on a fresh instance) make the ambient state explicit. -/
def select_profiles (p : SelectParams) (now : Int) (kfg0 : Option Bool)
    (prof sprof : List Row) : Except String (List (Int × List Nat)) :=
  match validate_params p now kfg0 with
  | .error e => .error e
  | .ok v =>
    match (if truthy_ids p.float_ids then validate_floats_kwarg (p.float_ids.getD []) prof
           else .ok ()) with
    | .error e => .error e
    | .ok _ =>
      let sel := prepare_selection prof sprof p.float_type p.float_ids
      narrow_profiles_by_criteria p.float_type p.outside p.ocean v now sel.1 sel.2

/-- Per-row eligibility flag of get_in_time_and_space_constraints: the row's
float has at least one row of the same frame inside both bounds
(wmoid.isin of the frame filtered by space and time). -/
def floats_in_both (rows : List Row) (s t : Row → Bool) (r : Row) : Bool :=
  wmoid_member (rows.filter (fun x => t x && s x)) r

/-- Sample rows used by concrete witness instantiations. -/
def wrow1 : Row := ⟨1, 10, 0, 0, "A", 1⟩

/-- Second sample row: same float as wrow1, outside space and time. -/
def wrow2 : Row := ⟨1, 20, 100, 0, "A", 2⟩

/-- Third sample row: a float with no row inside both bounds. -/
def wrow3 : Row := ⟨2, 10, 100, 50, "P", 1⟩

/-- Sample frame used by concrete witness instantiations. -/
def wrows : List Row := [wrow1, wrow2, wrow3]

/-- Sample geographic match predicate (comparison only, no arithmetic). -/
def wgeo (r : Row) : Bool := decide (r.longitude ≤ 50)

/-- Sample temporal match predicate. -/
def wtime (r : Row) : Bool := decide (r.date ≤ 15)

/-- Float ids of a frame in first-appearance order (the float set a frame
contributes to the result). -/
def frame_floats (frame : List Row) : List Int := (frame.map Row.wmoid).dedup

/-- Predicate collecting the invalid-criteria conditions of the spec: unequal
limit lengths, an out-of-range latitude, a nonpositive or too-large longitude
span, an end date before the start date, a start date before the dataset
epoch, or a truthy (non-empty) enum value outside the accepted set for
outside, type or ocean. -/
def invalid_criteria (p : SelectParams) (now : Int) : Prop :=
  p.lon_lim.length ≠ p.lat_lim.length
  ∨ (∃ la ∈ p.lat_lim, la < -90 ∨ 90 < la)
  ∨ (py_max p.lon_lim - py_min p.lon_lim ≤ 0 ∧ p.lon_lim ≠ [])
  ∨ 360 < py_max p.lon_lim - py_min p.lon_lim
  ∨ (p.end_date = none ∧ now + day_seconds < p.start_date)
  ∨ (∃ e, p.end_date = some e ∧ e < p.start_date)
  ∨ p.start_date < epoch_1995
  ∨ (∃ s, p.outside = some s ∧ s ≠ "" ∧ s ≠ "time" ∧ s ≠ "space" ∧ s ≠ "both")
  ∨ (p.float_type ≠ "" ∧ p.float_type ≠ "all" ∧ p.float_type ≠ "phys" ∧ p.float_type ≠ "bgc")
  ∨ (∃ s, p.ocean = some s ∧ s ≠ "" ∧ s ≠ "A" ∧ s ≠ "P" ∧ s ≠ "I")

/-- Row inside the full globe and inside the 1995-to-now window. -/
def c2row : Row := ⟨1, epoch_1995 + 50, 0, 0, "A", 1⟩

/-- Arguments with the invalid enum value type set to the empty string and
every other criterion valid. -/
def c2_params : SelectParams :=
  ⟨[-180, 180], [-90, 90], epoch_1995, some (epoch_1995 + 100), none, "", none, none⟩

/-- Arguments with a start date before the dataset epoch. -/
def c2_bad_params : SelectParams :=
  ⟨[-180, 180], [-90, 90], epoch_1995 - 100, none, none, "all", none, none⟩

/-- Arguments passing the literal string none for the outside keyword. -/
def c6_params : SelectParams :=
  ⟨[-180, 180], [-90, 90], epoch_1995, some (epoch_1995 + 100), some "none", "all", none, none⟩

/-- Row dated exactly at the dataset epoch. -/
def c7row : Row := ⟨1, epoch_1995, 0, 0, "A", 1⟩

/-- Wall clock for the C7 scenario. -/
def c7_now : Int := epoch_1995 + day_seconds

/-- Resolved end date for the C7 scenario (end date unset, so now plus one
day). -/
def c7_end : Int := c7_now + day_seconds

/-- Valid polygon limits: three vertices, equal lengths, latitudes in range,
longitude span ten degrees. -/
def c10_params : SelectParams :=
  ⟨[0, 10, 5], [0, 0, 10], epoch_1995, some (epoch_1995 + 100), none, "all", none, none⟩

/-- Row strictly inside the full date window and the globe. -/
def c7wrow : Row := ⟨1, epoch_1995 + 5000, 10, 20, "A", 1⟩

/-! Helper lemmas about the boolean-mask primitives. -/

theorem replicate_length_true (l : List Row) :
    List.replicate l.length true = l.map (fun _ => true) := by
  induction l with
  | nil => rfl
  | cons r rs ih => rw [List.length_cons, List.replicate_succ, List.map_cons, ih]

theorem zip_and_map (l : List Row) (p q : Row → Bool) :
    zip_and (l.map p) (l.map q) = l.map (fun r => p r && q r) := by
  induction l with
  | nil => rfl
  | cons r rs ih =>
    simp only [zip_and, List.map_cons, List.zipWith_cons_cons]
    exact congrArg _ ih

theorem mask_filter_map (l : List Row) (p : Row → Bool) :
    mask_filter l (l.map p) = l.filter p := by
  induction l with
  | nil => rfl
  | cons r rs ih =>
    simp only [List.map_cons, mask_filter, List.filter_cons]
    cases h : p r <;> simp [h, ih]

theorem mask_filter_mem {l : List Row} {mask : List Bool} {r : Row}
    (h : r ∈ mask_filter l mask) : r ∈ l := by
  induction l generalizing mask with
  | nil => cases mask <;> simp [mask_filter] at h
  | cons x xs ih =>
    cases mask with
    | nil => simp [mask_filter] at h
    | cons b bs =>
      cases b with
      | false =>
        simp only [mask_filter, if_neg] at h
        exact List.mem_cons_of_mem _ (ih h)
      | true =>
        simp only [mask_filter, if_pos] at h
        rcases List.mem_cons.mp h with h | h
        · exact h ▸ List.mem_cons_self x xs
        · exact List.mem_cons_of_mem _ (ih h)

theorem floats_in_both_iff (rows : List Row) (s t : Row → Bool) (r : Row) :
    floats_in_both rows s t r = true ↔
      ∃ x ∈ rows, x.wmoid = r.wmoid ∧ s x = true ∧ t x = true := by
  simp only [floats_in_both, wmoid_member, List.any_eq_true, List.mem_filter,
    Bool.and_eq_true, beq_iff_eq]
  constructor
  · rintro ⟨x, ⟨hx, ht, hs⟩, hw⟩
    exact ⟨x, hx, hw, hs, ht⟩
  · rintro ⟨x, hx, hw, hs, ht⟩
    exact ⟨x, ⟨hx, ht, hs⟩, hw⟩

/-! Bridging lemmas: each outside branch of get_in_time_and_space_constraints
is a plain row filter when the space and time vectors are computed pointwise
over the frame (which is how the two callees produce them). -/

theorem ts_constraints_none (rows : List Row) (s t : Row → Bool) :
    get_in_time_and_space_constraints none rows (rows.map s) (rows.map t) =
      .ok (rows.filter (fun r => floats_in_both rows s t r && s r && t r)) := by
  simp only [get_in_time_and_space_constraints, zip_and_map, mask_filter_map,
    floats_in_both]
  simp [zip_and_map, mask_filter_map]

theorem ts_constraints_time (rows : List Row) (s t : Row → Bool) :
    get_in_time_and_space_constraints (some "time") rows (rows.map s) (rows.map t) =
      .ok (rows.filter (fun r => floats_in_both rows s t r && s r)) := by
  simp only [get_in_time_and_space_constraints, zip_and_map, mask_filter_map,
    floats_in_both]
  simp [zip_and_map, mask_filter_map]

theorem ts_constraints_space (rows : List Row) (s t : Row → Bool) :
    get_in_time_and_space_constraints (some "space") rows (rows.map s) (rows.map t) =
      .ok (rows.filter (fun r => floats_in_both rows s t r && t r)) := by
  simp only [get_in_time_and_space_constraints, zip_and_map, mask_filter_map,
    floats_in_both]
  simp [zip_and_map, mask_filter_map]

theorem ts_constraints_both (rows : List Row) (s t : Row → Bool) :
    get_in_time_and_space_constraints (some "both") rows (rows.map s) (rows.map t) =
      .ok (rows.filter (fun r => floats_in_both rows s t r)) := by
  simp only [get_in_time_and_space_constraints, zip_and_map, mask_filter_map,
    floats_in_both]
  simp [zip_and_map, mask_filter_map]

theorem ts_constraints_ok_cases {o : Option String} {rows : List Row}
    {s t : Row → Bool} {frame : List Row}
    (h : get_in_time_and_space_constraints o rows (rows.map s) (rows.map t) = .ok frame) :
    frame = rows.filter (fun r => floats_in_both rows s t r && s r && t r)
    ∨ frame = rows.filter (fun r => floats_in_both rows s t r && s r)
    ∨ frame = rows.filter (fun r => floats_in_both rows s t r && t r)
    ∨ frame = rows.filter (fun r => floats_in_both rows s t r) := by
  by_cases h1 : o = some "time"
  · rw [h1, ts_constraints_time] at h
    exact Or.inr (Or.inl (Except.ok.inj h).symm)
  by_cases h2 : o = some "space"
  · rw [h2, ts_constraints_space] at h
    exact Or.inr (Or.inr (Or.inl (Except.ok.inj h).symm))
  by_cases h3 : o = none
  · rw [h3, ts_constraints_none] at h
    exact Or.inl (Except.ok.inj h).symm
  by_cases h4 : o = some "both"
  · rw [h4, ts_constraints_both] at h
    exact Or.inr (Or.inr (Or.inr (Except.ok.inj h).symm))
  · simp [get_in_time_and_space_constraints, h1, h2, h3, h4] at h

/-- C1: for every participating frame, with s and t the per-row geographic
and temporal match predicates and floats_in_both the per-row flag that the
row's float has at least one row of the frame satisfying both, the rows
retained are exactly the rows passing flag-and-space-and-time for outside
unset (Python None, the default), flag-and-space for outside time,
flag-and-time for outside space, and the flag alone for outside both; and a
float with no row satisfying both contributes no rows under any mode. -/
theorem c1_outside_mode_semantics (rows : List Row) (s t : Row → Bool) (w : Int) :
    (∀ r : Row, floats_in_both rows s t r = true ↔
        ∃ x ∈ rows, x.wmoid = r.wmoid ∧ s x = true ∧ t x = true)
    ∧ get_in_time_and_space_constraints none rows (rows.map s) (rows.map t) =
        .ok (rows.filter (fun r => floats_in_both rows s t r && s r && t r))
    ∧ get_in_time_and_space_constraints (some "time") rows (rows.map s) (rows.map t) =
        .ok (rows.filter (fun r => floats_in_both rows s t r && s r))
    ∧ get_in_time_and_space_constraints (some "space") rows (rows.map s) (rows.map t) =
        .ok (rows.filter (fun r => floats_in_both rows s t r && t r))
    ∧ get_in_time_and_space_constraints (some "both") rows (rows.map s) (rows.map t) =
        .ok (rows.filter (fun r => floats_in_both rows s t r))
    ∧ ((∀ x ∈ rows, x.wmoid = w → ¬(s x = true ∧ t x = true)) →
        ∀ o frame,
          get_in_time_and_space_constraints o rows (rows.map s) (rows.map t) = .ok frame →
          ∀ r ∈ frame, r.wmoid ≠ w) := by
  refine ⟨floats_in_both_iff rows s t, ts_constraints_none rows s t,
    ts_constraints_time rows s t, ts_constraints_space rows s t,
    ts_constraints_both rows s t, ?_⟩
  intro hw o frame hok r hr hrw
  have hflag : floats_in_both rows s t r = true := by
    rcases ts_constraints_ok_cases hok with h | h | h | h <;>
      · subst h
        have := (List.mem_filter.mp hr).2
        simp only [Bool.and_eq_true] at this
        first
        | exact this.1.1
        | exact this.1
        | exact this
  rcases (floats_in_both_iff rows s t r).mp hflag with ⟨x, hx, hxw, hxs, hxt⟩
  exact hw x hx (hxw.trans hrw) ⟨hxs, hxt⟩

/-- Witness for C1 at a concrete frame: float 2 has no row inside both
bounds and contributes no row to the outside both result. -/
theorem c1_witness :
    get_in_time_and_space_constraints (some "both") wrows (wrows.map wgeo) (wrows.map wtime) =
      .ok [wrow1, wrow2] ∧ wrow1.wmoid ≠ 2 := by
  have h := c1_outside_mode_semantics wrows wgeo wtime 2
  refine ⟨by rfl, ?_⟩
  exact h.2.2.2.2.2 (by decide) (some "both") [wrow1, wrow2] (by rfl) wrow1 (by decide)

/-- C9: for a fixed frame and fixed space and time predicates, the rows
retained under outside unset are a subset of those retained under time and
of those retained under space, and each of those is a subset of the rows
retained under both; consequently the retained row counts are monotone. -/
theorem c9_outside_mode_monotonicity (rows : List Row) (s t : Row → Bool)
    (fn ft fs fb : List Row)
    (hn : get_in_time_and_space_constraints none rows (rows.map s) (rows.map t) = .ok fn)
    (ht : get_in_time_and_space_constraints (some "time") rows (rows.map s) (rows.map t) = .ok ft)
    (hs : get_in_time_and_space_constraints (some "space") rows (rows.map s) (rows.map t) = .ok fs)
    (hb : get_in_time_and_space_constraints (some "both") rows (rows.map s) (rows.map t) = .ok fb) :
    fn ⊆ ft ∧ fn ⊆ fs ∧ ft ⊆ fb ∧ fs ⊆ fb
    ∧ fn.length ≤ ft.length ∧ fn.length ≤ fs.length
    ∧ ft.length ≤ fb.length ∧ fs.length ≤ fb.length := by
  rw [ts_constraints_none] at hn
  rw [ts_constraints_time] at ht
  rw [ts_constraints_space] at hs
  rw [ts_constraints_both] at hb
  have hn2 := (Except.ok.inj hn).symm
  have ht2 := (Except.ok.inj ht).symm
  have hs2 := (Except.ok.inj hs).symm
  have hb2 := (Except.ok.inj hb).symm
  subst hn2 ht2 hs2 hb2
  have m1 : (rows.filter (fun r => floats_in_both rows s t r && s r && t r)).Sublist
      (rows.filter (fun r => floats_in_both rows s t r && s r)) := by
    apply List.monotone_filter_right
    intro a ha
    simp only [Bool.and_eq_true] at ha ⊢
    exact ha.1
  have m2 : (rows.filter (fun r => floats_in_both rows s t r && s r && t r)).Sublist
      (rows.filter (fun r => floats_in_both rows s t r && t r)) := by
    apply List.monotone_filter_right
    intro a ha
    simp only [Bool.and_eq_true] at ha ⊢
    exact ⟨ha.1.1, ha.2⟩
  have m3 : (rows.filter (fun r => floats_in_both rows s t r && s r)).Sublist
      (rows.filter (fun r => floats_in_both rows s t r)) := by
    apply List.monotone_filter_right
    intro a ha
    simp only [Bool.and_eq_true] at ha
    exact ha.1
  have m4 : (rows.filter (fun r => floats_in_both rows s t r && t r)).Sublist
      (rows.filter (fun r => floats_in_both rows s t r)) := by
    apply List.monotone_filter_right
    intro a ha
    simp only [Bool.and_eq_true] at ha
    exact ha.1
  exact ⟨m1.subset, m2.subset, m3.subset, m4.subset,
    m1.length_le, m2.length_le, m3.length_le, m4.length_le⟩

/-- Witness for C9 at a concrete frame: the outside time frame is no longer
than the outside both frame. -/
theorem c9_witness : ([wrow1] : List Row).length ≤ ([wrow1, wrow2] : List Row).length := by
  have h := c9_outside_mode_monotonicity wrows wgeo wtime
    [wrow1] [wrow1] [wrow1] [wrow1, wrow2] (by rfl) (by rfl) (by rfl) (by rfl)
  exact h.2.2.2.2.2.2.1

/-! Lemmas for the ordinal assignment of the loaders. -/

theorem cumcount_go_key (seen l : List Row) :
    (cumcount_go seen l).map row_key = l.map row_key := by
  induction l generalizing seen with
  | nil => rfl
  | cons r rs ih =>
    simp only [cumcount_go, List.map_cons, ih]
    rfl

theorem cumcount_go_ordinals (l : List Row) :
    ∀ (seen : List Row) (w : Int),
      ((cumcount_go seen l).filter (fun r => r.wmoid == w)).map Row.profile_index =
        List.range' (seen.countP (fun x => x.wmoid == w) + 1)
          (l.countP (fun x => x.wmoid == w)) := by
  induction l with
  | nil => intro seen w; simp [cumcount_go]
  | cons r rs ih =>
    intro seen w
    have e1 : cumcount_go seen (r :: rs) =
        { r with profile_index := seen.countP (fun x => x.wmoid == r.wmoid) + 1 } ::
          cumcount_go (r :: seen) rs := rfl
    by_cases hw : r.wmoid = w
    · subst hw
      have hpred : ((fun x : Row => x.wmoid == r.wmoid)
          { r with profile_index := seen.countP (fun x => x.wmoid == r.wmoid) + 1 }) = true := by
        simp
      have e2 : (r :: seen).countP (fun x : Row => x.wmoid == r.wmoid) =
          seen.countP (fun x : Row => x.wmoid == r.wmoid) + 1 := by
        rw [List.countP_cons]
        simp
      have e3 : (r :: rs).countP (fun x : Row => x.wmoid == r.wmoid) =
          rs.countP (fun x : Row => x.wmoid == r.wmoid) + 1 := by
        rw [List.countP_cons]
        simp
      rw [e1, List.filter_cons, if_pos hpred, List.map_cons, ih (r :: seen) r.wmoid,
        e2, e3, List.range'_succ]
    · have hbeq : (r.wmoid == w) = false := by simpa using hw
      have hpred : ((fun x : Row => x.wmoid == w)
          { r with profile_index := seen.countP (fun x => x.wmoid == r.wmoid) + 1 }) = false := by
        simpa using hw
      have e2 : (r :: seen).countP (fun x : Row => x.wmoid == w) =
          seen.countP (fun x : Row => x.wmoid == w) := by
        rw [List.countP_cons]
        simp [hbeq]
      have e3 : (r :: rs).countP (fun x : Row => x.wmoid == w) =
          rs.countP (fun x : Row => x.wmoid == w) := by
        rw [List.countP_cons]
        simp [hbeq]
      rw [e1, List.filter_cons, if_neg (by simp [hbeq]), ih (r :: seen) w, e2, e3]

theorem sorted_key_pairwise (rows : List Row) :
    List.Pairwise row_le (assign_profile_indexes rows) := by
  have hs : List.Sorted row_le (List.insertionSort row_le rows) :=
    List.sorted_insertionSort row_le rows
  have h2 : List.Pairwise
      (fun a b : Int × Int => a.1 < b.1 ∨ (a.1 = b.1 ∧ a.2 ≤ b.2))
      ((List.insertionSort row_le rows).map row_key) :=
    List.pairwise_map.mpr (hs.imp (fun h => h))
  rw [← cumcount_go_key [] (List.insertionSort row_le rows)] at h2
  have h3 := List.pairwise_map.mp h2
  exact h3.imp (fun h => h)

/-- C3: for every loaded catalog table (the prof and sprof loaders share the
sort and cumcount logic modelled by assign_profile_indexes) and every float
id, the profile_index values of that float's rows are exactly the integers
1 through N, where N is the float's row count, listed in ascending order;
along that same order the dates are nondecreasing; and the loader only
rewrites profile_index, keeping the (wmoid, date) content of the table up to
permutation. -/
theorem c3_ordinal_invariant (rows : List Row) (w : Int) :
    ((assign_profile_indexes rows).filter (fun r => r.wmoid == w)).map Row.profile_index =
      List.range' 1 (rows.countP (fun x => x.wmoid == w))
    ∧ List.Pairwise (fun a b : Row => a.date ≤ b.date)
        ((assign_profile_indexes rows).filter (fun r => r.wmoid == w))
    ∧ ((assign_profile_indexes rows).map row_key).Perm (rows.map row_key) := by
  refine ⟨?_, ?_, ?_⟩
  · have h := cumcount_go_ordinals (List.insertionSort row_le rows) [] w
    have hp : (List.insertionSort row_le rows).countP (fun x => x.wmoid == w) =
        rows.countP (fun x => x.wmoid == w) :=
      (List.perm_insertionSort row_le rows).countP_eq _
    simpa [assign_profile_indexes, hp] using h
  · have hpw := sorted_key_pairwise rows
    have hf : ((assign_profile_indexes rows).filter (fun r => r.wmoid == w)).Sublist
        (assign_profile_indexes rows) := List.filter_sublist _
    have h2 := List.Pairwise.sublist hf hpw
    refine List.Pairwise.imp_of_mem ?_ h2
    intro a b ha hb hab
    have haw : a.wmoid = w := by simpa using (List.mem_filter.mp ha).2
    have hbw : b.wmoid = w := by simpa using (List.mem_filter.mp hb).2
    rcases hab with hlt | ⟨_, hd⟩
    · rw [haw, hbw] at hlt
      exact absurd hlt (lt_irrefl w)
    · exact hd
  · have hk := cumcount_go_key [] (List.insertionSort row_le rows)
    have hperm := (List.perm_insertionSort row_le rows).map row_key
    simpa [assign_profile_indexes, hk] using hperm

/-! Lemmas for the biogeochemical classification and the table scoping. -/

theorem is_bgc_float_iff (sprof : List Row) (w : Int) :
    is_bgc_float sprof w = true ↔ ∃ r ∈ sprof, r.wmoid = w := by
  simp only [is_bgc_float, List.contains_eq_any_beq, List.any_eq_true, List.mem_dedup,
    List.mem_map, beq_iff_eq]
  constructor
  · rintro ⟨x, ⟨r, hr, rfl⟩, rfl⟩
    exact ⟨r, hr, rfl⟩
  · rintro ⟨r, hr, rfl⟩
    exact ⟨r.wmoid, ⟨r, hr, rfl⟩, rfl⟩

theorem float_is_bgc_index_mem {prof sprof : List Row} {p : Int × Bool}
    (h : p ∈ float_is_bgc_index prof sprof) : p.2 = is_bgc_float sprof p.1 := by
  simp only [float_is_bgc_index, List.mem_dedup, List.mem_map] at h
  obtain ⟨r, _, rfl⟩ := h
  rfl

theorem ts_constraints_ok_mask {o : Option String} {rows : List Row} {S T : List Bool}
    {frame : List Row}
    (h : get_in_time_and_space_constraints o rows S T = .ok frame) :
    ∃ mask, frame = mask_filter rows mask := by
  simp only [get_in_time_and_space_constraints] at h
  split_ifs at h
  all_goals exact ⟨_, (Except.ok.inj h).symm⟩

theorem ts_full_subset {outside : Option String} {kfg : Option Bool}
    {lon_lim lat_lim : List ℚ} {sd ed now : Int} {rows frame : List Row}
    (h : get_in_time_and_space_full outside kfg lon_lim lat_lim sd ed now rows = .ok frame) :
    ∀ r ∈ frame, r ∈ rows := by
  unfold get_in_time_and_space_full at h
  cases hg : get_in_geographic_range kfg lon_lim lat_lim rows with
  | error e =>
    simp only [hg] at h
    exact absurd h (by simp)
  | ok s =>
    simp only [hg] at h
    obtain ⟨mask, rfl⟩ := ts_constraints_ok_mask h
    intro r hr
    exact mask_filter_mem hr

theorem prepare_selection_prof_not_bgc {prof sprof : List Row} {ft : String}
    {ids : Option (List Int)} {selp : List Row}
    (h : (prepare_selection prof sprof ft ids).1 = some selp) :
    ∀ r ∈ selp, r ∈ prof ∧ is_bgc_float sprof r.wmoid = false := by
  cases ids with
  | none =>
    simp only [prepare_selection] at h
    rw [← Option.some.inj h]
    intro r hr
    have hm := List.mem_filter.mp hr
    refine ⟨hm.1, ?_⟩
    simpa using hm.2
  | some ids =>
    simp only [prepare_selection] at h
    by_cases hft : ft ≠ "bgc"
    · rw [if_pos hft] at h
      rw [← Option.some.inj h]
      intro r hr
      have hm := List.mem_filter.mp hr
      refine ⟨hm.1, ?_⟩
      have hc : r.wmoid ∈ ((float_is_bgc_index prof sprof).filter
          (fun p => ids.contains p.1 && !p.2)).map Prod.fst := by
        simpa [List.contains_eq_any_beq, List.any_eq_true, beq_iff_eq] using hm.2
      obtain ⟨p, hp, hpw⟩ := List.mem_map.mp hc
      have hpf := List.mem_filter.mp hp
      have hp2 : p.2 = false := by
        have := hpf.2
        simp only [Bool.and_eq_true, Bool.not_eq_eq_eq_not, Bool.not_true] at this
        simpa using this.2
      have := float_is_bgc_index_mem hpf.1
      rw [← hpw, ← this, hp2]
    · rw [if_neg hft] at h
      exact absurd h (by simp)

theorem prepare_selection_sprof_sub {prof sprof : List Row} {ft : String}
    {ids : Option (List Int)} {sels : List Row}
    (h : (prepare_selection prof sprof ft ids).2 = some sels) :
    ∀ r ∈ sels, r ∈ sprof := by
  cases ids with
  | none =>
    simp only [prepare_selection] at h
    rw [← Option.some.inj h]
    intro r hr
    exact hr
  | some ids =>
    simp only [prepare_selection] at h
    by_cases hft : ft ≠ "phys"
    · rw [if_pos hft] at h
      rw [← Option.some.inj h]
      intro r hr
      exact (List.mem_filter.mp hr).1
    · rw [if_neg hft] at h
      exact absurd h (by simp)

/-- C4: a float is classified biogeochemical exactly when its id appears in
the biogeochemical (sprof) catalog, and for a selection with type all the
physical table participates restricted to floats that are not
biogeochemical: no float id can reach the result through physical-table
frames while that same float id also has biogeochemical-table frames. -/
theorem c4_bgc_overlap_exclusion (prof sprof : List Row) (ids : Option (List Int))
    (outside : Option String) (kfg : Option Bool) (lon_lim lat_lim : List ℚ)
    (sd ed now : Int) (w : Int) :
    (is_bgc_float sprof w = true ↔ ∃ r ∈ sprof, r.wmoid = w)
    ∧ (∀ selp sels frame_phys frame_bgc,
        (prepare_selection prof sprof "all" ids).1 = some selp →
        (prepare_selection prof sprof "all" ids).2 = some sels →
        get_in_time_and_space_full outside kfg lon_lim lat_lim sd ed now selp = .ok frame_phys →
        get_in_time_and_space_full outside kfg lon_lim lat_lim sd ed now sels = .ok frame_bgc →
        (∃ r ∈ frame_phys, r.wmoid = w) → ¬ ∃ r ∈ frame_bgc, r.wmoid = w) := by
  refine ⟨is_bgc_float_iff sprof w, ?_⟩
  rintro selp sels fp fb hp hs hfp hfb ⟨r, hr, hrw⟩ ⟨r2, hr2, hr2w⟩
  have h1 : r ∈ selp := ts_full_subset hfp r hr
  have h2 := prepare_selection_prof_not_bgc hp r h1
  have h3 : r2 ∈ sprof := prepare_selection_sprof_sub hs r2 (ts_full_subset hfb r2 hr2)
  have h4 : is_bgc_float sprof r.wmoid = true := by
    rw [hrw, ← hr2w]
    exact (is_bgc_float_iff sprof r2.wmoid).mpr ⟨r2, h3, rfl⟩
  rw [h2.2] at h4
  exact Bool.false_ne_true h4

/-- Witness for C4 at a concrete pair of tables: float 1 enters through the
physical side only and float 2 is not reported from the physical table. -/
theorem c4_witness :
    (prepare_selection [wrow1] [wrow3] "all" none).1 = some [wrow1] ∧
      ¬ ∃ r ∈ ([wrow3] : List Row), r.wmoid = 1 := by
  have h := c4_bgc_overlap_exclusion [wrow1] [wrow3] none none (some true) [] []
    epoch_1995 (epoch_1995 + 100) (epoch_1995 + 100) 1
  refine ⟨by rfl, ?_⟩
  exact h.2 [wrow1] [wrow3] [wrow1] [wrow3] (by rfl) (by rfl) (by rfl) (by rfl)
    ⟨wrow1, by decide, by decide⟩

/-! Lemmas for the resilient fetch loop. -/

theorem try_iteration_flag (ok : String → Bool) (hs : List String) :
    (try_iteration ok hs).2 = hs.any ok := by
  induction hs with
  | nil => rfl
  | cons x xs ih =>
    simp only [try_iteration, List.any_cons]
    cases hok : ok x
    · simp [hok, ih]
    · simp [hok]

theorem try_iteration_trace_fail {ok : String → Bool} {hs : List String}
    (h : hs.any ok = false) : (try_iteration ok hs).1 = hs := by
  induction hs with
  | nil => rfl
  | cons x xs ih =>
    cases hok : ok x with
    | true => rw [List.any_cons, hok] at h; simp at h
    | false =>
      rw [List.any_cons, hok] at h
      simp only [Bool.false_or] at h
      simp [try_iteration, hok, ih h]

theorem cut_map_iteration (okn : Nat → String → Bool) (i : Nat) (hs : List String) :
    cut_at_first_success okn (hs.map (fun h => (i, h))) =
      (try_iteration (okn i) hs).1.map (fun h => (i, h)) := by
  induction hs with
  | nil => rfl
  | cons x xs ih =>
    simp only [List.map_cons, cut_at_first_success]
    cases hok : okn i x
    · simp [try_iteration, hok, ih]
    · simp [try_iteration, hok]

theorem cut_at_first_success_append (okn : Nat → String → Bool)
    (a b : List (Nat × String)) :
    cut_at_first_success okn (a ++ b) =
      if a.any (fun t => okn t.1 t.2) then cut_at_first_success okn a
      else a ++ cut_at_first_success okn b := by
  induction a with
  | nil => simp [cut_at_first_success]
  | cons t ts ih =>
    simp only [List.cons_append, cut_at_first_success, List.any_cons]
    cases hok : okn t.1 t.2
    · cases hta : ts.any (fun t => okn t.1 t.2) <;>
        simp [hok, hta, ih, cut_at_first_success]
    · simp [hok]

theorem any_map_pair (ok : Nat → String → Bool) (i : Nat) (hs : List String) :
    (hs.map (fun h => (i, h))).any (fun t => ok t.1 t.2) = hs.any (ok i) := by
  induction hs with
  | nil => rfl
  | cons x xs ih => simp [List.any_cons, ih]

theorem try_download_loop_spec (ok : Nat → String → Bool) (hosts : List String) :
    ∀ (fuel iter : Nat),
      (try_download_loop ok hosts iter fuel).1 =
        cut_at_first_success ok
          ((List.range' iter fuel).flatMap (fun i => hosts.map (fun h => (i, h))))
      ∧ (try_download_loop ok hosts iter fuel).2 =
        ((List.range' iter fuel).flatMap (fun i => hosts.map (fun h => (i, h)))).any
          (fun t => ok t.1 t.2) := by
  intro fuel
  induction fuel with
  | zero => intro iter; simp [try_download_loop, cut_at_first_success]
  | succ n ih =>
    intro iter
    have hflag : (try_iteration (ok iter) hosts).2 = hosts.any (ok iter) :=
      try_iteration_flag (ok iter) hosts
    have hA : (hosts.map (fun h => (iter, h))).any (fun t => ok t.1 t.2) =
        hosts.any (ok iter) := any_map_pair ok iter hosts
    have hsplit : (List.range' iter (n + 1)).flatMap (fun i => hosts.map (fun h => (i, h))) =
        hosts.map (fun h => (iter, h)) ++
          (List.range' (iter + 1) n).flatMap (fun i => hosts.map (fun h => (i, h))) := by
      rw [List.range'_succ, List.flatMap_cons]
    cases hp : (try_iteration (ok iter) hosts).2 with
    | true =>
      have hany : hosts.any (ok iter) = true := by rw [← hflag, hp]
      constructor
      · show (try_download_loop ok hosts iter (n + 1)).1 = _
        rw [hsplit, cut_at_first_success_append, if_pos (by rw [hA, hany]),
          cut_map_iteration]
        simp [try_download_loop, hp]
      · show (try_download_loop ok hosts iter (n + 1)).2 = _
        rw [hsplit, List.any_append, hA, hany]
        simp [try_download_loop, hp]
    | false =>
      have hany : hosts.any (ok iter) = false := by rw [← hflag, hp]
      have htrace : (try_iteration (ok iter) hosts).1 = hosts :=
        try_iteration_trace_fail hany
      constructor
      · show (try_download_loop ok hosts iter (n + 1)).1 = _
        rw [hsplit, cut_at_first_success_append, if_neg (by rw [hA, hany]; exact Bool.false_ne_true)]
        have := (ih (iter + 1)).1
        simp [try_download_loop, hp, htrace, this]
      · show (try_download_loop ok hosts iter (n + 1)).2 = _
        rw [hsplit, List.any_append, hA, hany]
        have := (ih (iter + 1)).2
        simp [try_download_loop, hp, this]

theorem all_tries_eq (max_attempts : Nat) (hosts : List String) :
    all_tries max_attempts hosts =
      (List.range' 0 max_attempts).flatMap (fun i => hosts.map (fun h => (i, h))) := by
  rw [all_tries, List.range_eq_range']

/-- C5: the download loop of try_download tries at most max_attempts
iterations, each iteration trying every configured host in priority order
and stopping at the first success (its trace is the prefix of the full
iteration-by-host schedule up to and including the first success); a fatal
failure is raised exactly when the call was an initial fetch (no local file,
update_status false) and every host failed on every attempt; a refresh whose
attempts all fail produces only the non-fatal warning; and whenever the
download did not succeed the old local file is left in place. -/
theorem c5_try_download_contract (max_attempts : Nat) (hosts : List String)
    (ok : Nat → String → Bool) (update_status : Bool) (old_file : Option String)
    (new_file : String) :
    (try_download max_attempts hosts ok update_status old_file new_file).2.2 =
      cut_at_first_success ok (all_tries max_attempts hosts)
    ∧ ((try_download max_attempts hosts ok update_status old_file new_file).1 = .fatalFailure ↔
        update_status = false ∧ ∀ t ∈ all_tries max_attempts hosts, ok t.1 t.2 = false)
    ∧ ((try_download max_attempts hosts ok update_status old_file new_file).1 = .staleWarning ↔
        update_status = true ∧ ∀ t ∈ all_tries max_attempts hosts, ok t.1 t.2 = false)
    ∧ ((try_download max_attempts hosts ok update_status old_file new_file).1 ≠ .fileWritten →
        (try_download max_attempts hosts ok update_status old_file new_file).2.1 = old_file) := by
  have hspec := try_download_loop_spec ok hosts max_attempts 0
  have hanyiff : ∀ (L : List (Nat × String)),
      (L.any (fun t => ok t.1 t.2) = false ↔ ∀ t ∈ L, ok t.1 t.2 = false) := by
    intro L
    induction L with
    | nil => simp
    | cons t ts ih => cases hok : ok t.1 t.2 <;> simp [List.any_cons, hok, ih]
  have hfail : (try_download_loop ok hosts 0 max_attempts).2 = false ↔
      ∀ t ∈ all_tries max_attempts hosts, ok t.1 t.2 = false := by
    rw [hspec.2, ← all_tries_eq]
    exact hanyiff (all_tries max_attempts hosts)
  have htr : (try_download_loop ok hosts 0 max_attempts).1 =
      cut_at_first_success ok (all_tries max_attempts hosts) := by
    rw [all_tries_eq]
    exact hspec.1
  cases hp : (try_download_loop ok hosts 0 max_attempts).2 with
  | true =>
    have hne : ¬ (∀ t ∈ all_tries max_attempts hosts, ok t.1 t.2 = false) := by
      intro hall
      have hx := hfail.mpr hall
      rw [hp] at hx
      exact absurd hx (by decide)
    have heq : try_download max_attempts hosts ok update_status old_file new_file =
        (DownloadOutcome.fileWritten, some new_file,
          (try_download_loop ok hosts 0 max_attempts).1) := by
      simp [try_download, hp]
    refine ⟨?_, ?_, ?_, ?_⟩
    · rw [heq]
      exact htr
    · rw [heq]
      constructor
      · intro h
        simp at h
      · rintro ⟨_, hall⟩
        exact absurd hall hne
    · rw [heq]
      constructor
      · intro h
        simp at h
      · rintro ⟨_, hall⟩
        exact absurd hall hne
    · rw [heq]
      intro h
      exact absurd rfl h
  | false =>
    have hall := hfail.mp hp
    cases update_status with
    | true =>
      have heq : try_download max_attempts hosts ok true old_file new_file =
          (DownloadOutcome.staleWarning, old_file,
            (try_download_loop ok hosts 0 max_attempts).1) := by
        simp [try_download, hp]
      refine ⟨?_, ?_, ?_, ?_⟩
      · rw [heq]
        exact htr
      · rw [heq]
        constructor
        · intro h
          simp at h
        · rintro ⟨hu, _⟩
          exact absurd hu (by decide)
      · rw [heq]
        constructor
        · intro _
          exact ⟨rfl, hall⟩
        · intro _
          rfl
      · rw [heq]
        intro _
        rfl
    | false =>
      have heq : try_download max_attempts hosts ok false old_file new_file =
          (DownloadOutcome.fatalFailure, old_file,
            (try_download_loop ok hosts 0 max_attempts).1) := by
        simp [try_download, hp]
      refine ⟨?_, ?_, ?_, ?_⟩
      · rw [heq]
        exact htr
      · rw [heq]
        constructor
        · intro _
          exact ⟨rfl, hall⟩
        · intro _
          rfl
      · rw [heq]
        constructor
        · intro h
          simp at h
        · rintro ⟨hu, _⟩
          exact absurd hu (by decide)
      · rw [heq]
        intro _
        rfl

/-- Witness for C5: two hosts that always fail, two attempts, refreshing an
existing file: the result is the non-fatal warning and the old file stays. -/
theorem c5_witness :
    (try_download 2 ["hostA", "hostB"] (fun _ _ => false) true (some "old") "new").1 =
      DownloadOutcome.staleWarning
    ∧ (try_download 2 ["hostA", "hostB"] (fun _ _ => false) true (some "old") "new").2.1 =
      some "old" := by
  have h := c5_try_download_contract 2 ["hostA", "hostB"] (fun _ _ => false) true
    (some "old") "new"
  exact ⟨(h.2.2.1).mpr ⟨rfl, by decide⟩, h.2.2.2 (by decide)⟩

/-- C8: with a local copy present, a zero update threshold means no refresh
is ever attempted, and otherwise a refresh download (update_status true) is
attempted exactly when the seconds since the last modification exceed the
threshold; with no local copy a download (update_status false) is always
attempted. -/
theorem c8_staleness_policy (update seconds_since_modified : ℚ)
    (max_attempts : Nat) (hosts : List String) (ok : Nat → String → Bool)
    (old_file : Option String) (new_file : String) :
    (update = 0 →
      download_index_run true update seconds_since_modified max_attempts hosts ok
        old_file new_file = none)
    ∧ (download_index_run true update seconds_since_modified max_attempts hosts ok
        old_file new_file =
          some (try_download max_attempts hosts ok true old_file new_file) ↔
        update ≠ 0 ∧ seconds_since_modified > update)
    ∧ (update ≠ 0 → ¬ seconds_since_modified > update →
        download_index_run true update seconds_since_modified max_attempts hosts ok
          old_file new_file = none)
    ∧ download_index_run false update seconds_since_modified max_attempts hosts ok
        old_file new_file =
          some (try_download max_attempts hosts ok false old_file new_file) := by
  refine ⟨?_, ?_, ?_, ?_⟩
  · intro h0
    simp [download_index_run, download_index_file, h0]
  · constructor
    · intro h
      by_cases h0 : update = 0
      · simp [download_index_run, download_index_file, h0] at h
      · by_cases hgt : seconds_since_modified > update
        · exact ⟨h0, hgt⟩
        · simp [download_index_run, download_index_file, h0, hgt] at h
    · rintro ⟨h0, hgt⟩
      simp [download_index_run, download_index_file, h0, hgt]
  · intro h0 hgt
    simp [download_index_run, download_index_file, h0, hgt]
  · simp [download_index_run, download_index_file]

/-- Witness for C8: threshold five with ten seconds elapsed triggers a
refresh; threshold zero never does. -/
theorem c8_witness :
    download_index_run true 5 10 1 ["hostA"] (fun _ _ => false) (some "old") "new" =
      some (try_download 1 ["hostA"] (fun _ _ => false) true (some "old") "new")
    ∧ download_index_run true 0 10 1 ["hostA"] (fun _ _ => false) (some "old") "new" =
      none := by
  have h1 := c8_staleness_policy 5 10 1 ["hostA"] (fun _ _ => false) (some "old") "new"
  have h2 := c8_staleness_policy 0 10 1 ["hostA"] (fun _ _ => false) (some "old") "new"
  exact ⟨(h1.2.1).mpr ⟨by decide, by decide⟩, h2.1 rfl⟩

/-! Lemmas extracting the facts guaranteed by a successful validation. -/

theorem validate_lon_lat_ok_facts {lon_lim lat_lim : List ℚ} {kfg0 : Option Bool}
    {res : List ℚ × Option Bool}
    (h : validate_lon_lat_limits lon_lim lat_lim kfg0 = .ok res) :
    lon_lim.length = lat_lim.length
    ∧ (∀ la ∈ lat_lim, -90 ≤ la ∧ la ≤ 90)
    ∧ lon_lim ≠ []
    ∧ 0 < py_max lon_lim - py_min lon_lim
    ∧ py_max lon_lim - py_min lon_lim ≤ 360 := by
  simp only [validate_lon_lat_limits] at h
  by_cases h1 : lon_lim.length ≠ lat_lim.length
  · rw [if_pos h1] at h
    exact absurd h (by simp)
  · rw [if_neg h1] at h
    cases hv : validate_two_element_limits lon_lim lat_lim kfg0 with
    | error e =>
      simp only [hv] at h
      exact absurd h (by simp)
    | ok kfg =>
      simp only [hv] at h
      by_cases h2 : ¬ (∀ la ∈ lat_lim, -90 ≤ la ∧ la ≤ 90)
      · rw [if_pos h2] at h
        exact absurd h (by simp)
      · rw [if_neg h2] at h
        by_cases h3 : lon_lim.isEmpty = true
        · rw [if_pos h3] at h
          exact absurd h (by simp)
        · rw [if_neg h3] at h
          by_cases h4 : py_max lon_lim - py_min lon_lim > 360 ∨
              py_max lon_lim - py_min lon_lim ≤ 0
          · rw [if_pos h4] at h
            exact absurd h (by simp)
          · push_neg at h4
            refine ⟨not_not.mp h1, not_not.mp h2, ?_, h4.2, h4.1⟩
            intro hz
            rw [hz] at h3
            exact h3 rfl

theorem validate_dates_ok_facts {sd : Int} {ed : Option Int} {now : Int}
    {res : Int × Int} (h : validate_start_end_dates sd ed now = .ok res) :
    (ed = none → sd ≤ now + day_seconds)
    ∧ (∀ e, ed = some e → sd ≤ e)
    ∧ epoch_1995 ≤ sd := by
  cases ed with
  | none =>
    simp only [validate_start_end_dates] at h
    by_cases h1 : sd > now + day_seconds
    · rw [if_pos h1] at h
      exact absurd h (by simp)
    · rw [if_neg h1] at h
      by_cases h2 : sd < epoch_1995
      · rw [if_pos h2] at h
        exact absurd h (by simp)
      · exact ⟨fun _ => le_of_not_lt h1, fun e he => Option.noConfusion he, le_of_not_lt h2⟩
  | some e0 =>
    simp only [validate_start_end_dates] at h
    by_cases h1 : sd > e0
    · rw [if_pos h1] at h
      exact absurd h (by simp)
    · rw [if_neg h1] at h
      by_cases h2 : sd < epoch_1995
      · rw [if_pos h2] at h
        exact absurd h (by simp)
      · refine ⟨fun he => Option.noConfusion he, fun e he => ?_, le_of_not_lt h2⟩
        rw [Option.some.inj he] at h1
        exact le_of_not_lt h1

theorem validate_outside_ok_facts {o : Option String} {u : Unit}
    (h : validate_outside_kwarg o = .ok u) :
    ∀ s, o = some s → s = "time" ∨ s = "space" ∨ s = "both" := by
  intro s hs
  subst hs
  simp only [validate_outside_kwarg] at h
  by_cases h1 : s ≠ "time" ∧ s ≠ "space" ∧ s ≠ "both"
  · rw [if_pos h1] at h
    exact absurd h (by simp)
  · by_cases ha : s = "time"
    · exact Or.inl ha
    by_cases hb : s = "space"
    · exact Or.inr (Or.inl hb)
    by_cases hc : s = "both"
    · exact Or.inr (Or.inr hc)
    exact absurd ⟨ha, hb, hc⟩ h1

theorem validate_type_ok_facts {ft : String} {u : Unit}
    (h : validate_type_kwarg ft = .ok u) :
    ft = "all" ∨ ft = "phys" ∨ ft = "bgc" := by
  simp only [validate_type_kwarg] at h
  by_cases h1 : ft ≠ "all" ∧ ft ≠ "phys" ∧ ft ≠ "bgc"
  · rw [if_pos h1] at h
    exact absurd h (by simp)
  · by_cases ha : ft = "all"
    · exact Or.inl ha
    by_cases hb : ft = "phys"
    · exact Or.inr (Or.inl hb)
    by_cases hc : ft = "bgc"
    · exact Or.inr (Or.inr hc)
    exact absurd ⟨ha, hb, hc⟩ h1

theorem validate_ocean_ok_facts {oc : Option String} {u : Unit}
    (h : validate_ocean_kwarg oc = .ok u) :
    oc = some "A" ∨ oc = some "P" ∨ oc = some "I" := by
  simp only [validate_ocean_kwarg] at h
  by_cases h1 : oc ≠ some "A" ∧ oc ≠ some "P" ∧ oc ≠ some "I"
  · rw [if_pos h1] at h
    exact absurd h (by simp)
  · by_cases ha : oc = some "A"
    · exact Or.inl ha
    by_cases hb : oc = some "P"
    · exact Or.inr (Or.inl hb)
    by_cases hc : oc = some "I"
    · exact Or.inr (Or.inr hc)
    exact absurd ⟨ha, hb, hc⟩ h1

theorem validate_params_ok_facts {p : SelectParams} {now : Int} {kfg0 : Option Bool}
    {v : ValidatedCriteria} (h : validate_params p now kfg0 = .ok v) :
    p.lon_lim.length = p.lat_lim.length
    ∧ (∀ la ∈ p.lat_lim, -90 ≤ la ∧ la ≤ 90)
    ∧ p.lon_lim ≠ []
    ∧ 0 < py_max p.lon_lim - py_min p.lon_lim
    ∧ py_max p.lon_lim - py_min p.lon_lim ≤ 360
    ∧ (p.end_date = none → p.start_date ≤ now + day_seconds)
    ∧ (∀ e, p.end_date = some e → p.start_date ≤ e)
    ∧ epoch_1995 ≤ p.start_date
    ∧ (∀ s, p.outside = some s → s ≠ "" → s = "time" ∨ s = "space" ∨ s = "both")
    ∧ (p.float_type ≠ "" → p.float_type = "all" ∨ p.float_type = "phys" ∨ p.float_type = "bgc")
    ∧ (∀ s, p.ocean = some s → s ≠ "" → s = "A" ∨ s = "P" ∨ s = "I") := by
  simp only [validate_params] at h
  cases h1 : validate_lon_lat_limits p.lon_lim p.lat_lim kfg0 with
  | error e => simp [h1] at h
  | ok lk =>
    simp only [h1] at h
    cases h2 : validate_start_end_dates p.start_date p.end_date now with
    | error e => simp [h2] at h
    | ok se =>
      simp only [h2] at h
      cases h3 : (if truthy_str p.outside then validate_outside_kwarg p.outside
          else .ok ()) with
      | error e => simp [h3] at h
      | ok u3 =>
        simp only [h3] at h
        cases h4 : (if p.float_type ≠ "" then validate_type_kwarg p.float_type
            else .ok ()) with
        | error e => simp [h4] at h
        | ok u4 =>
          simp only [h4] at h
          cases h5 : (if truthy_str p.ocean then validate_ocean_kwarg p.ocean
              else .ok ()) with
          | error e => simp [h5] at h
          | ok u5 =>
            have f1 := validate_lon_lat_ok_facts h1
            have f2 := validate_dates_ok_facts h2
            have f3 : ∀ s, p.outside = some s → s ≠ "" →
                s = "time" ∨ s = "space" ∨ s = "both" := by
              intro s hs hne
              by_cases htr : truthy_str p.outside = true
              · rw [if_pos htr] at h3
                exact validate_outside_ok_facts h3 s hs
              · rw [hs] at htr
                simp [truthy_str, hne] at htr
            have f4 : p.float_type ≠ "" →
                p.float_type = "all" ∨ p.float_type = "phys" ∨ p.float_type = "bgc" := by
              intro hne
              rw [if_pos hne] at h4
              exact validate_type_ok_facts h4
            have f5 : ∀ s, p.ocean = some s → s ≠ "" →
                s = "A" ∨ s = "P" ∨ s = "I" := by
              intro s hs hne
              by_cases htr : truthy_str p.ocean = true
              · rw [if_pos htr] at h5
                have := validate_ocean_ok_facts h5
                rcases this with hx | hx | hx <;>
                  · rw [hs] at hx
                    simp at hx
                    tauto
              · rw [hs] at htr
                simp [truthy_str, hne] at htr
            exact ⟨f1.1, f1.2.1, f1.2.2.1, f1.2.2.2.1, f1.2.2.2.2,
              f2.1, f2.2.1, f2.2.2, f3, f4, f5⟩

/-- C2 (amended): whenever select_profiles is called with invalid criteria
in the amended sense (unequal-length limit lists, a latitude outside the
range -90 to 90, a longitude span that is zero, negative or greater than
360 degrees, an end date earlier than the start date, a start date before
the dataset epoch, or a truthy non-empty invalid enum value for outside,
type or ocean), it fails with an error that does not depend on the index
tables: validation raises before any table is read and no filtering is
attempted. -/
theorem c2_invalid_criteria_rejected (p : SelectParams) (now : Int)
    (kfg0 : Option Bool) (h : invalid_criteria p now) :
    ∃ msg, ∀ prof sprof : List Row,
      select_profiles p now kfg0 prof sprof = .error msg := by
  cases hv : validate_params p now kfg0 with
  | error e => exact ⟨e, fun prof sprof => by simp [select_profiles, hv]⟩
  | ok v =>
    exfalso
    have f := validate_params_ok_facts hv
    rcases h with h | h | h | h | h | h | h | h | h | h
    · exact h f.1
    · obtain ⟨la, hla, hout⟩ := h
      have := f.2.1 la hla
      rcases hout with hx | hx
      · exact absurd this.1 (not_le.mpr hx)
      · exact absurd this.2 (not_le.mpr hx)
    · exact absurd f.2.2.2.1 (not_lt.mpr h.1)
    · exact absurd f.2.2.2.2.1 (not_le.mpr h)
    · have := f.2.2.2.2.2.1 h.1
      exact absurd this (not_le.mpr h.2)
    · obtain ⟨e, he, hlt⟩ := h
      have := f.2.2.2.2.2.2.1 e he
      exact absurd this (not_le.mpr hlt)
    · exact absurd f.2.2.2.2.2.2.2.1 (not_le.mpr h)
    · obtain ⟨s, hs, hne, ha, hb, hc⟩ := h
      rcases f.2.2.2.2.2.2.2.2.1 s hs hne with hx | hx | hx
      · exact ha hx
      · exact hb hx
      · exact hc hx
    · obtain ⟨hne, ha, hb, hc⟩ := h
      rcases f.2.2.2.2.2.2.2.2.2.1 hne with hx | hx | hx
      · exact ha hx
      · exact hb hx
      · exact hc hx
    · obtain ⟨s, hs, hne, ha, hb, hc⟩ := h
      rcases f.2.2.2.2.2.2.2.2.2.2 s hs hne with hx | hx | hx
      · exact ha hx
      · exact hb hx
      · exact hc hx

/-- Witness for C2: a start date one hundred seconds before the dataset
epoch is rejected independently of the tables. -/
theorem c2_witness :
    ∃ msg, ∀ prof sprof : List Row,
      select_profiles c2_bad_params epoch_1995 none prof sprof = .error msg := by
  apply c2_invalid_criteria_rejected
  right; right; right; right; right; right; left
  decide

/-! Concrete evaluations of the validation phase. -/

theorem c2_validate_eval :
    validate_params c2_params (epoch_1995 + 200) none =
      .ok ⟨[-180, 180], [-90, 90], some true, epoch_1995, epoch_1995 + 100⟩ := by
  norm_num [validate_params, validate_lon_lat_limits, validate_two_element_limits,
    validate_start_end_dates, validate_outside_kwarg, validate_type_kwarg,
    validate_ocean_kwarg, truthy_str, epsilon_q, py_min, py_max, min_def, max_def,
    c2_params, epoch_1995, day_seconds]

/-- C2 counterexample: the empty string is an invalid enum value for type
(the accepted values are all, phys and bgc), yet a select_profiles call
passing it is not rejected: the empty string is falsy, skips validation,
and the call filters and returns a result. -/
theorem c2_counterexample :
    select_profiles c2_params (epoch_1995 + 200) none [c2row] [] = .ok [(1, [1])] := by
  simp only [select_profiles, c2_validate_eval]
  rfl

/-- C6: the source rejects the literal string none for the outside keyword,
although the select_profiles docstring documents outside equal to none as
the valid spelling of the default mode: validate_outside_kwarg accepts only
time, space and both, so a call passing outside none raises. -/
theorem c6_outside_none_rejected :
    validate_outside_kwarg (some "none") =
      .error "The only acceptable values for the outside keyword argument are time, space, and both."
    ∧ select_profiles c6_params (epoch_1995 + 200) none [] [] =
      .error "The only acceptable values for the outside keyword argument are time, space, and both." := by
  constructor
  · rfl
  · norm_num [select_profiles, validate_params, validate_lon_lat_limits,
      validate_two_element_limits, validate_start_end_dates, validate_outside_kwarg,
      truthy_str, epsilon_q, py_min, py_max, min_def, max_def, c6_params,
      epoch_1995, day_seconds]
    rfl

theorem c10_validate_eval :
    validate_params c10_params (epoch_1995 + 200) none =
      .ok ⟨[0, 10, 5], [0, 0, 10], none, epoch_1995, epoch_1995 + 100⟩ := by
  norm_num [validate_params, validate_lon_lat_limits, validate_two_element_limits,
    validate_start_end_dates, validate_outside_kwarg, validate_type_kwarg,
    validate_ocean_kwarg, truthy_str, epsilon_q, py_min, py_max, min_def, max_def,
    c10_params, epoch_1995, day_seconds]

/-- C10: with valid three-vertex polygon limits on a fresh instance,
validation succeeds without ever assigning keep_full_geographic (it is only
assigned for two-element limits), and get_in_geographic_range reads that
attribute unconditionally, so select_profiles fails with an AttributeError
instead of filtering. -/
theorem c10_polygon_limits_attribute_error :
    validate_lon_lat_limits [0, 10, 5] [0, 0, 10] none = .ok ([0, 10, 5], none)
    ∧ get_in_geographic_range none [0, 10, 5] [0, 0, 10] [] =
        .error "AttributeError: Argo object has no attribute keep_full_geographic"
    ∧ select_profiles c10_params (epoch_1995 + 200) none [] [] =
        .error "AttributeError: Argo object has no attribute keep_full_geographic" := by
  refine ⟨?_, rfl, ?_⟩
  · norm_num [validate_lon_lat_limits, validate_two_element_limits, py_min, py_max,
      min_def, max_def]
  · simp only [select_profiles, c10_validate_eval]
    rfl

/-! Lemmas for the fast-path equivalence. -/

theorem map_eq_replicate_true {rows : List Row} {f : Row → Bool}
    (h : ∀ r ∈ rows, f r = true) :
    rows.map f = List.replicate rows.length true := by
  induction rows with
  | nil => rfl
  | cons r rs ih =>
    simp only [List.map_cons, List.length_cons, List.replicate_succ]
    rw [h r (List.mem_cons_self r rs), ih (fun x hx => h x (List.mem_cons_of_mem r hx))]

theorem py_min_full_lon : py_min [-180, 180] = -180 := by
  norm_num [py_min, min_def]

theorem py_max_full_lon : py_max [-180, 180] = 180 := by
  norm_num [py_max, max_def]

theorem py_min_full_lat : py_min [-90, 90] = -90 := by
  norm_num [py_min, min_def]

theorem py_max_full_lat : py_max [-90, 90] = 90 := by
  norm_num [py_max, max_def]

theorem geo_general_full_true {r : Row} (hlon : -180 ≤ r.longitude ∧ r.longitude ≤ 180)
    (hlat : -90 ≤ r.latitude ∧ r.latitude ≤ 90) :
    geo_general_pred [-180, 180] [-90, 90] r = true := by
  have h1 : adjusted_longitude [-180, 180] r.longitude = r.longitude := by
    simp only [adjusted_longitude, py_max_full_lon]
    rw [if_neg (by norm_num)]
  simp only [geo_general_pred]
  rw [if_pos (show ([-90, 90] : List ℚ).length = 2 from rfl), py_min_full_lon,
    py_max_full_lon, py_min_full_lat, py_max_full_lat, h1]
  simp [rect_contains, hlon.1, hlon.2, hlat.1, hlat.2]

/-- C7 counterexample: a catalog holding one profile dated exactly at the
dataset epoch, queried with the full globe and the full date range (end
date unset, resolved to now plus one day).  The temporal fast path marks the
row as matching while the strict general date test rejects it, so the
selection keeps different rows and returns a different float set than the
general tests it bypasses. -/
theorem c7_counterexample :
    get_in_geographic_range (some true) [-180, 180] [-90, 90] [c7row] =
      .ok (List.replicate 1 true)
    ∧ [c7row].map (geo_general_pred [-180, 180] [-90, 90]) = [true]
    ∧ get_in_date_range epoch_1995 c7_end c7_now [c7row] = [true]
    ∧ [c7row].map (date_general_pred epoch_1995 c7_end) = [false]
    ∧ get_in_time_and_space_constraints none [c7row] (List.replicate 1 true)
        (get_in_date_range epoch_1995 c7_end c7_now [c7row]) = .ok [c7row]
    ∧ get_in_time_and_space_constraints none [c7row]
        ([c7row].map (geo_general_pred [-180, 180] [-90, 90]))
        ([c7row].map (date_general_pred epoch_1995 c7_end)) = .ok []
    ∧ frame_floats [c7row] ≠ frame_floats [] := by
  refine ⟨rfl, ?_, rfl, rfl, rfl, ?_, by decide⟩
  · have := geo_general_full_true (r := c7row) (by norm_num [c7row]) (by norm_num [c7row])
    simp [this]
  · have := geo_general_full_true (r := c7row) (by norm_num [c7row]) (by norm_num [c7row])
    simp only [List.map_cons, List.map_nil, this]
    rfl

/-- C7 (amended): over a catalog whose profile dates lie strictly after the
dataset epoch and strictly before the resolved end bound, and whose
coordinates lie in the standardized closed ranges, the whole-globe and
full-date-range fast paths (which mark every row as matching) agree with
the general geographic and strict temporal tests they bypass, so the
selection result and float set are identical under every outside mode.
Without the strict-date restriction the two can differ (see the profile
dated exactly at the epoch). -/
theorem c7_fast_path_equivalence_amended (rows : List Row) (end_date now : Int)
    (hend : now ≤ end_date)
    (hdates : ∀ r ∈ rows, epoch_1995 < r.date ∧ r.date < end_date)
    (hlon : ∀ r ∈ rows, -180 ≤ r.longitude ∧ r.longitude ≤ 180)
    (hlat : ∀ r ∈ rows, -90 ≤ r.latitude ∧ r.latitude ≤ 90) :
    get_in_date_range epoch_1995 end_date now rows =
      rows.map (date_general_pred epoch_1995 end_date)
    ∧ get_in_geographic_range (some true) [-180, 180] [-90, 90] rows =
        .ok (rows.map (geo_general_pred [-180, 180] [-90, 90]))
    ∧ ∀ o, get_in_time_and_space_constraints o rows
          (List.replicate rows.length true) (List.replicate rows.length true) =
        get_in_time_and_space_constraints o rows
          (rows.map (geo_general_pred [-180, 180] [-90, 90]))
          (rows.map (date_general_pred epoch_1995 end_date)) := by
  have hdg : rows.map (date_general_pred epoch_1995 end_date) =
      List.replicate rows.length true := by
    apply map_eq_replicate_true
    intro r hr
    have := hdates r hr
    simp [date_general_pred, this.1, this.2]
  have hgg : rows.map (geo_general_pred [-180, 180] [-90, 90]) =
      List.replicate rows.length true := by
    apply map_eq_replicate_true
    intro r hr
    exact geo_general_full_true (hlon r hr) (hlat r hr)
  refine ⟨?_, ?_, ?_⟩
  · simp only [get_in_date_range, eq_self_iff_true, true_and]
    rw [if_pos hend, hdg]
  · simp only [get_in_geographic_range, if_pos, hgg]
  · intro o
    rw [hdg, hgg]

/-- Witness for C7 at a concrete in-range catalog: the temporal fast path
agrees with the strict general test. -/
theorem c7_witness :
    get_in_date_range epoch_1995 c7_end c7_now [c7wrow] =
      [c7wrow].map (date_general_pred epoch_1995 c7_end) := by
  have h := c7_fast_path_equivalence_amended [c7wrow] c7_end c7_now (by decide)
    (by decide) (by decide) (by decide)
  exact h.1
